import Mathlib

/-!
Shallow embedding of `openstack_user_manager/manager.py` (safir_openstack_user_manager).

The manager is a thin client over remote identity and network APIs.  We model the
remote cloud as an explicit `Cloud` state and every remote call made by a method as
one indexed step.  A fault schedule `faults : Nat → Option PyExc` says, for the n-th
remote call issued by one method invocation, whether that call raises (and which
Python exception class) instead of performing its remote effect.  A call that raises
leaves the remote state unchanged; a call that succeeds commits its effect to the
state immediately (there is no transaction around a method).  Each method returns
`Except PyExc Bool × Cloud`: `Except.ok b` is the Python boolean return value,
`Except.error e` is an exception escaping the method uncaught.
-/

/-- Python exception classes relevant to the `try/except` clauses in the source:
`keystoneauth1.exceptions.NotFound` (a subclass of `ClientException`), other
`keystoneauth1.exceptions.ClientException`s, `neutronclient`'s `NeutronException`,
and the builtin `IndexError` / `AttributeError` raised by plain Python code. -/
inductive PyExc where
  | notFound
  | kaClient
  | neutron
  | indexError
  | attributeError
  | otherError
deriving Repr, DecidableEq

/-- `except ka_exceptions.ClientException` catches `NotFound` (its subclass) too. -/
def isKaClientException : PyExc → Bool
  | PyExc.notFound => true
  | PyExc.kaClient => true
  | _ => false

/-- `except n_exceptions.NeutronException` catches only neutron client errors. -/
def isNeutronException : PyExc → Bool
  | PyExc.neutron => true
  | _ => false

/-- Whether the exception object carries a `.message` attribute (keystoneauth HTTP
errors and neutron exceptions set one; builtin exceptions do not).  The generic
`except Exception` handler in `pair_user_with_project` reads `ex.message`, which
itself raises `AttributeError` on an exception without that attribute. -/
def hasMessageAttr : PyExc → Bool
  | PyExc.notFound => true
  | PyExc.kaClient => true
  | PyExc.neutron => true
  | _ => false

structure User where
  id : Nat
  name : String
  email : String
  enabled : Bool
deriving Repr, DecidableEq

structure Project where
  id : Nat
  name : String
  description : String
  enabled : Bool
  properties : List (String × String)
deriving Repr, DecidableEq

structure Role where
  id : Nat
  name : String
deriving Repr, DecidableEq

structure Network where
  id : Nat
  name : String
  projectId : Nat
  adminStateUp : Bool
deriving Repr, DecidableEq

structure Subnet where
  id : Nat
  name : String
  networkId : Nat
  gatewayIp : String
  enableDhcp : Bool
  ipVersion : Nat
  cidr : String
  dnsNameservers : List String
deriving Repr, DecidableEq

structure Router where
  id : Nat
  name : String
  adminStateUp : Bool
  extNetworkId : Nat
  tenantId : Nat
deriving Repr, DecidableEq

structure RouterInterface where
  routerId : Nat
  subnetId : Nat
  tenantId : Nat
deriving Repr, DecidableEq

structure SecGroup where
  id : Nat
  name : String
  projectId : Nat
deriving Repr, DecidableEq

structure SecGroupRule where
  securityGroupId : Nat
  projectId : Nat
  direction : String
  remoteIpPrefix : String
  protocol : String
  portRangeMax : String
  portRangeMin : String
  ethertype : String
deriving Repr, DecidableEq

structure Grant where
  roleId : Nat
  userId : Nat
  projectId : Nat
deriving Repr, DecidableEq

/-- The remote calls the manager issues, with the exact parameters it passes;
every successful call is appended to the `Cloud` trace in order. -/
inductive ApiCall where
  | findUser (name : String)
  | findProject (name : String)
  | findRole (name : String)
  | createProject (name : String) (description : String) (enabled : Bool)
  | updateProject (projectId : Nat) (key : String) (value : String)
  | createUser (name : String) (email : String) (password : String) (enabled : Bool)
  | grantRole (roleId : Nat) (userId : Nat) (projectId : Nat)
  | createNetwork (name : String) (projectId : Nat) (adminStateUp : Bool)
  | createSubnet (name : String) (networkId : Nat) (gatewayIp : String)
      (enableDhcp : Bool) (ipVersion : Nat) (cidr : String) (dnsNameservers : List String)
  | listNetworks
  | createRouter (name : String) (adminStateUp : Bool) (extNetId : Nat) (tenantId : Nat)
  | addInterfaceRouter (routerId : Nat) (subnetId : Nat) (tenantId : Nat)
  | securityGroups
  | createSecurityGroupRule (securityGroupId : Nat) (projectId : Nat)
      (direction : String) (remoteIpPrefix : String) (protocol : String)
      (portRangeMax : String) (portRangeMin : String) (ethertype : String)
deriving Repr, DecidableEq

/-- The remote cloud state: the resources held by the identity and network services,
a fresh-id counter for newly created resources, and the trace of successful calls. -/
structure Cloud where
  users : List User
  projects : List Project
  roles : List Role
  networks : List Network
  subnets : List Subnet
  routers : List Router
  routerInterfaces : List RouterInterface
  secGroups : List SecGroup
  secGroupRules : List SecGroupRule
  grants : List Grant
  nextId : Nat
  trace : List ApiCall
deriving Repr, DecidableEq

/-- One remote call: the k-th call of the invocation either raises according to the
fault schedule (leaving the remote state untouched) or performs its effect. -/
def remoteCall {α : Type} (faults : Nat → Option PyExc) (k : Nat)
    (act : Cloud → α × Cloud) (st : Cloud) : Except PyExc α × Cloud :=
  match faults k with
  | some e => (Except.error e, st)
  | none => ((Except.ok (act st).1 : Except PyExc α), (act st).2)

/-- `conn.identity.find_user(name)`: lookup by name; returns the resource or None. -/
def findUserAct (n : String) (st : Cloud) : Option User × Cloud :=
  (st.users.find? (fun u => u.name == n),
   { st with trace := st.trace ++ [ApiCall.findUser n] })

/-- `conn.identity.find_project(name)`: lookup by name; returns the resource or None. -/
def findProjectAct (n : String) (st : Cloud) : Option Project × Cloud :=
  (st.projects.find? (fun p => p.name == n),
   { st with trace := st.trace ++ [ApiCall.findProject n] })

/-- `conn.identity.find_role(name)`: lookup by name; returns the resource or None. -/
def findRoleAct (n : String) (st : Cloud) : Option Role × Cloud :=
  (st.roles.find? (fun r => r.name == n),
   { st with trace := st.trace ++ [ApiCall.findRole n] })

def noFaults : Nat → Option PyExc := fun _ => none

/--
```python
def check_username_availability(self, user_name):
    try:
        user = self.conn.identity.find_user(user_name)
        if user is not None:
            return False
    except ka_exceptions.NotFound:
        return True
    return True
```
Only `NotFound` is caught; any other exception escapes. -/
def check_username_availability (user_name : String) (faults : Nat → Option PyExc)
    (st : Cloud) : Except PyExc Bool × Cloud :=
  match remoteCall faults 0 (findUserAct user_name) st with
  | (Except.ok (some _), st1) => (Except.ok false, st1)
  | (Except.ok none, st1) => (Except.ok true, st1)
  | (Except.error PyExc.notFound, st1) => (Except.ok true, st1)
  | (Except.error e, st1) => (Except.error e, st1)

/-- `check_projectname_availability`: identical shape over `find_project`. -/
def check_projectname_availability (project_name : String) (faults : Nat → Option PyExc)
    (st : Cloud) : Except PyExc Bool × Cloud :=
  match remoteCall faults 0 (findProjectAct project_name) st with
  | (Except.ok (some _), st1) => (Except.ok false, st1)
  | (Except.ok none, st1) => (Except.ok true, st1)
  | (Except.error PyExc.notFound, st1) => (Except.ok true, st1)
  | (Except.error e, st1) => (Except.error e, st1)

/-- `conn.identity.create_project(name=..., description=..., enabled=...)`:
creates a fresh project with no extra properties yet. -/
def createProjectAct (name description : String) (enabled : Bool) (st : Cloud) :
    Unit × Cloud :=
  ((), { st with
         projects := st.projects ++
           [{ id := st.nextId, name := name, description := description,
              enabled := enabled, properties := [] }],
         nextId := st.nextId + 1,
         trace := st.trace ++ [ApiCall.createProject name description enabled] })

/-- Setting one key/value property on a property list (replace or append). -/
def setProp (props : List (String × String)) (key value : String) :
    List (String × String) :=
  if props.any (fun kv => kv.1 == key)
  then props.map (fun kv => if kv.1 == key then (key, value) else kv)
  else props ++ [(key, value)]

/-- `conn.identity.update_project(project, **{key: value})`: updates the project
with the given id in place on the remote side. -/
def updateProjectAct (projectId : Nat) (key value : String) (st : Cloud) :
    Unit × Cloud :=
  ((), { st with
         projects := st.projects.map (fun p =>
           if p.id == projectId
           then { p with properties := setProp p.properties key value }
           else p),
         trace := st.trace ++ [ApiCall.updateProject projectId key value] })

/-- The `for key, value in properties.items():` loop of `create_project`: one
`update_project` remote call per property, in order, starting at call index k.
`update_project(None, ...)` (project not resolved) fails on the missing id. -/
def applyProperties (faults : Nat → Option PyExc) (k : Nat) (project : Option Project)
    (props : List (String × String)) (st : Cloud) : Except PyExc Unit × Cloud :=
  match props with
  | [] => (Except.ok (), st)
  | (key, value) :: rest =>
    match project with
    | none =>
      match faults k with
      | some e => (Except.error e, st)
      | none => (Except.error PyExc.attributeError, st)
    | some p =>
      match remoteCall faults k (updateProjectAct p.id key value) st with
      | (Except.error e, st1) => (Except.error e, st1)
      | (Except.ok _, st1) => applyProperties faults (k + 1) (some p) rest st1

/--
```python
def create_project(self, description, project_name, properties, enabled=False):
    try:
        self.conn.identity.create_project(name=project_name,
                                          description=description,
                                          enabled=enabled)
        project = self.conn.identity.find_project(project_name)
        for key, value in properties.items():
            self.conn.identity.update_project(project, **{key: value})
    except ka_exceptions.ClientException as ex:
        LOG.error(...)
        return False
    return True
```
Properties are modelled as an ordered association list (`dict.items()` iterates in
insertion order).  Calls: 0 = create, 1 = find, 2+i = i-th property update. -/
def create_project (description project_name : String)
    (properties : List (String × String)) (enabled : Bool)
    (faults : Nat → Option PyExc) (st : Cloud) : Except PyExc Bool × Cloud :=
  let body : Except PyExc Unit × Cloud :=
    match remoteCall faults 0 (createProjectAct project_name description enabled) st with
    | (Except.error e, st1) => (Except.error e, st1)
    | (Except.ok _, st1) =>
      match remoteCall faults 1 (findProjectAct project_name) st1 with
      | (Except.error e, st2) => (Except.error e, st2)
      | (Except.ok project, st2) => applyProperties faults 2 project properties st2
  match body with
  | (Except.ok _, st9) => (Except.ok true, st9)
  | (Except.error e, st9) =>
    if isKaClientException e then (Except.ok false, st9) else (Except.error e, st9)

/-- `keystone_conn.roles.grant(role, user=user, project=project)`: the identity
service records the grant when all three entities resolved; granting with a `None`
entity makes the HTTP request fail against the remote service (no grant recorded),
surfacing as a keystoneauth `NotFound` client error. -/
def grantStep (faults : Nat → Option PyExc) (k : Nat) (role : Option Role)
    (user : Option User) (project : Option Project) (st : Cloud) :
    Except PyExc Unit × Cloud :=
  match faults k with
  | some e => (Except.error e, st)
  | none =>
    match role, user, project with
    | some r, some u, some p =>
      (Except.ok (), { st with
        grants := st.grants ++ [{ roleId := r.id, userId := u.id, projectId := p.id }],
        trace := st.trace ++ [ApiCall.grantRole r.id u.id p.id] })
    | _, _, _ => (Except.error PyExc.notFound, st)

/--
```python
def pair_user_with_project(self, user_name, project_name, role_name):
    try:
        user = self.conn.identity.find_user(user_name)
        project = self.conn.identity.find_project(project_name)
        role = self.conn.identity.find_role(role_name)
        self.keystone_conn.roles.grant(role, user=user, project=project)
    except ka_exceptions.ClientException as ex:
        LOG.error(... + str(ex.message)); return False
    except Exception as ex:
        LOG.error(... + str(ex.message)); return False
    return True
```
The generic handler reads `ex.message`, so an exception without that attribute
makes the handler itself raise `AttributeError`. -/
def pair_user_with_project (user_name project_name role_name : String)
    (faults : Nat → Option PyExc) (st : Cloud) : Except PyExc Bool × Cloud :=
  let body : Except PyExc Unit × Cloud :=
    match remoteCall faults 0 (findUserAct user_name) st with
    | (Except.error e, st1) => (Except.error e, st1)
    | (Except.ok user, st1) =>
      match remoteCall faults 1 (findProjectAct project_name) st1 with
      | (Except.error e, st2) => (Except.error e, st2)
      | (Except.ok project, st2) =>
        match remoteCall faults 2 (findRoleAct role_name) st2 with
        | (Except.error e, st3) => (Except.error e, st3)
        | (Except.ok role, st3) => grantStep faults 3 role user project st3
  match body with
  | (Except.ok _, st9) => (Except.ok true, st9)
  | (Except.error e, st9) =>
    if isKaClientException e then (Except.ok false, st9)
    else if hasMessageAttr e then (Except.ok false, st9)
    else (Except.error PyExc.attributeError, st9)

/-- `conn.network.create_network(name=..., project_id=..., admin_state_up=True)`. -/
def createNetworkAct (name : String) (projectId : Nat) (adminStateUp : Bool)
    (st : Cloud) : Network × Cloud :=
  let net : Network :=
    { id := st.nextId, name := name, projectId := projectId, adminStateUp := adminStateUp }
  (net, { st with
          networks := st.networks ++ [net],
          nextId := st.nextId + 1,
          trace := st.trace ++ [ApiCall.createNetwork name projectId adminStateUp] })

/-- `conn.network.create_subnet(name=..., network_id=..., gateway_ip=...,
enable_dhcp=..., ip_version=..., cidr=..., dns_nameservers=...)`. -/
def createSubnetAct (name : String) (networkId : Nat) (gatewayIp : String)
    (enableDhcp : Bool) (ipVersion : Nat) (cidr : String)
    (dnsNameservers : List String) (st : Cloud) : Subnet × Cloud :=
  let sub : Subnet :=
    { id := st.nextId, name := name, networkId := networkId, gatewayIp := gatewayIp,
      enableDhcp := enableDhcp, ipVersion := ipVersion, cidr := cidr,
      dnsNameservers := dnsNameservers }
  (sub, { st with
          subnets := st.subnets ++ [sub],
          nextId := st.nextId + 1,
          trace := st.trace ++
            [ApiCall.createSubnet name networkId gatewayIp enableDhcp ipVersion
              cidr dnsNameservers] })

/-- `neutron_conn.list_networks()['networks']`: all networks visible to the session. -/
def listNetworksAct (st : Cloud) : List Network × Cloud :=
  (st.networks, { st with trace := st.trace ++ [ApiCall.listNetworks] })

/-- `neutron_conn.create_router({'router': {...}})`. -/
def createRouterAct (name : String) (adminStateUp : Bool) (extNetId tenantId : Nat)
    (st : Cloud) : Router × Cloud :=
  let r : Router :=
    { id := st.nextId, name := name, adminStateUp := adminStateUp,
      extNetworkId := extNetId, tenantId := tenantId }
  (r, { st with
        routers := st.routers ++ [r],
        nextId := st.nextId + 1,
        trace := st.trace ++ [ApiCall.createRouter name adminStateUp extNetId tenantId] })

/-- `neutron_conn.add_interface_router(router_id, {'subnet_id': ..., 'tenant_id': ...})`. -/
def addInterfaceRouterAct (routerId subnetId tenantId : Nat) (st : Cloud) :
    Unit × Cloud :=
  ((), { st with
         routerInterfaces := st.routerInterfaces ++
           [{ routerId := routerId, subnetId := subnetId, tenantId := tenantId }],
         trace := st.trace ++ [ApiCall.addInterfaceRouter routerId subnetId tenantId] })

/--
`init_network(project_name, external_network_name, dns_nameservers, subnet_cidr,
subnet_gateway_ip)`, call for call:

0. `find_project(project_name)` — a `None` result then crashes on `project.id`
   (`AttributeError`, caught by neither handler);
1. `create_network(name="private", project_id=project.id, admin_state_up=True)`;
2. `create_subnet(name="private", network_id=net.id, gateway_ip=...,
   enable_dhcp=True, ip_version=4, cidr=..., dns_nameservers=...)`;
3. `list_networks()`, then the pure scan
   `[e for e in networks if e['name'] == external_network_name][0]['id']` — empty
   comprehension raises `IndexError`, caught by neither handler;
4. `create_router({'router': {'name': "router", 'admin_state_up': True,
   'external_gateway_info': {'network_id': ext_net_id}, 'tenant_id': project.id}})`;
5. `add_interface_router(router['router']['id'], {'subnet_id': subnet.id,
   'tenant_id': project.id})`.

`except NeutronException` / `except ka ClientException` turn those exceptions into
`return False`; everything else escapes.  No step removes or compensates anything. -/
def init_network (project_name external_network_name : String)
    (dns_nameservers : List String) (subnet_cidr subnet_gateway_ip : String)
    (faults : Nat → Option PyExc) (st : Cloud) : Except PyExc Bool × Cloud :=
  let body : Except PyExc Unit × Cloud :=
    match remoteCall faults 0 (findProjectAct project_name) st with
    | (Except.error e, st1) => (Except.error e, st1)
    | (Except.ok none, st1) => (Except.error PyExc.attributeError, st1)
    | (Except.ok (some project), st1) =>
      match remoteCall faults 1 (createNetworkAct "private" project.id true) st1 with
      | (Except.error e, st2) => (Except.error e, st2)
      | (Except.ok net, st2) =>
        match remoteCall faults 2
            (createSubnetAct "private" net.id subnet_gateway_ip true 4 subnet_cidr
              dns_nameservers) st2 with
        | (Except.error e, st3) => (Except.error e, st3)
        | (Except.ok subnet, st3) =>
          match remoteCall faults 3 listNetworksAct st3 with
          | (Except.error e, st4) => (Except.error e, st4)
          | (Except.ok nets, st4) =>
            match nets.filter (fun n => n.name == external_network_name) with
            | [] => (Except.error PyExc.indexError, st4)
            | extNet :: _ =>
              match remoteCall faults 4
                  (createRouterAct "router" true extNet.id project.id) st4 with
              | (Except.error e, st5) => (Except.error e, st5)
              | (Except.ok router, st5) =>
                match remoteCall faults 5
                    (addInterfaceRouterAct router.id subnet.id project.id) st5 with
                | (Except.error e, st6) => (Except.error e, st6)
                | (Except.ok _, st6) => (Except.ok (), st6)
  match body with
  | (Except.ok _, st9) => (Except.ok true, st9)
  | (Except.error e, st9) =>
    if isNeutronException e then (Except.ok false, st9)
    else if isKaClientException e then (Except.ok false, st9)
    else (Except.error e, st9)

/-- `conn.network.security_groups()`: all security groups visible to the session. -/
def securityGroupsAct (st : Cloud) : List SecGroup × Cloud :=
  (st.secGroups, { st with trace := st.trace ++ [ApiCall.securityGroups] })

/-- `conn.network.create_security_group_rule(...)` with the exact keyword values. -/
def createSecurityGroupRuleAct (securityGroupId projectId : Nat)
    (direction remoteIpPrefix protocol portRangeMax portRangeMin ethertype : String)
    (st : Cloud) : Unit × Cloud :=
  ((), { st with
         secGroupRules := st.secGroupRules ++
           [{ securityGroupId := securityGroupId, projectId := projectId,
              direction := direction, remoteIpPrefix := remoteIpPrefix,
              protocol := protocol, portRangeMax := portRangeMax,
              portRangeMin := portRangeMin, ethertype := ethertype }],
         trace := st.trace ++
           [ApiCall.createSecurityGroupRule securityGroupId projectId direction
             remoteIpPrefix protocol portRangeMax portRangeMin ethertype] })

/--
```python
def add_ssh_rule(self, project_name):
    try:
        project = self.conn.identity.find_project(project_name)
        default_sec_groups = self.conn.network.security_groups()
        print(default_sec_groups)
        sec_group_id = None
        for sec_group in default_sec_groups:
            if sec_group.project_id == project.id:
                sec_group_id = sec_group.id
        if sec_group_id is not None:
            self.conn.network.create_security_group_rule(
                security_group_id=sec_group_id, project_id=project.id,
                direction='ingress', remote_ip_prefix='0.0.0.0/0', protocol='TCP',
                port_range_max='22', port_range_min='22', ethertype='IPv4')
    except ka_exceptions.ClientException as ex:
        LOG.error(...); return False
    return True
```
The loop keeps overwriting `sec_group_id`, so the last matching group wins.  With
`project = None` the comparison `project.id` raises `AttributeError` on the first
iteration (uncaught); with an empty group list the loop body never runs and the
method returns True. -/
def add_ssh_rule (project_name : String) (faults : Nat → Option PyExc) (st : Cloud) :
    Except PyExc Bool × Cloud :=
  let body : Except PyExc Unit × Cloud :=
    match remoteCall faults 0 (findProjectAct project_name) st with
    | (Except.error e, st1) => (Except.error e, st1)
    | (Except.ok projectOpt, st1) =>
      match remoteCall faults 1 securityGroupsAct st1 with
      | (Except.error e, st2) => (Except.error e, st2)
      | (Except.ok groups, st2) =>
        match projectOpt with
        | none =>
          if groups.isEmpty then (Except.ok (), st2)
          else (Except.error PyExc.attributeError, st2)
        | some project =>
          match groups.foldl
              (fun acc g => if g.projectId == project.id then some g.id else acc)
              none with
          | none => (Except.ok (), st2)
          | some gid =>
            match remoteCall faults 2
                (createSecurityGroupRuleAct gid project.id "ingress" "0.0.0.0/0"
                  "TCP" "22" "22" "IPv4") st2 with
            | (Except.error e, st3) => (Except.error e, st3)
            | (Except.ok _, st3) => (Except.ok (), st3)
  match body with
  | (Except.ok _, st9) => (Except.ok true, st9)
  | (Except.error e, st9) =>
    if isKaClientException e then (Except.ok false, st9) else (Except.error e, st9)

/-- The observable outcome of `OpenstackUserManager.__init__`: the error log and
which of the three backend sessions were opened. -/
structure ManagerState where
  errorLog : List String
  unifiedSessionOpen : Bool
  networkSessionOpen : Bool
  identitySessionOpen : Bool
deriving Repr, DecidableEq

def identityVersionError : String :=
  "This version of OpenStack User Management Library only supports Identity version 3."

/--
`OpenstackUserManager.__init__`: configuration loading and the session handshakes
are external collaborators modelled as succeeding; the embedded local logic is the
identity-version check and its position in the construction sequence:

1. `self.conn = connection.from_config(...)` (unified session);
2. `if identity_api_version != '3': LOG.error(...)` — log only, no raise, no return;
3. `self.neutron_conn = ...` and `self.keystone_conn = ...` (the two legacy sessions).

The `Except` result type records that no path of the constructor raises. -/
def managerInit (identity_api_version : String) : Except PyExc ManagerState :=
  let unifiedOpen := true
  let errs : List String :=
    if identity_api_version ≠ "3" then [identityVersionError] else []
  Except.ok { errorLog := errs, unifiedSessionOpen := unifiedOpen,
              networkSessionOpen := true, identitySessionOpen := true }

/-- The iterated remote effect of the property-update loop when no call faults:
used to characterise the state `create_project` leaves behind. -/
def applyUpdatesPure (pid : Nat) (kvs : List (String × String)) (st : Cloud) : Cloud :=
  match kvs with
  | [] => st
  | (key, value) :: rest => applyUpdatesPure pid rest (updateProjectAct pid key value st).2

/-- A fault schedule where only the k-th remote call raises e. -/
def faultAt (k : Nat) (e : PyExc) : Nat → Option PyExc :=
  fun n => if n == k then some e else none

/-- A concrete cloud fixture with one user, one project, one role, one external
network and one default security group, used to instantiate the theorems. -/
def cloudA : Cloud :=
  { users := [{ id := 1, name := "alice", email := "alice@example.org", enabled := true }],
    projects := [{ id := 2, name := "proj1", description := "demo", enabled := true,
                   properties := [] }],
    roles := [{ id := 3, name := "member" }],
    networks := [{ id := 4, name := "ext-net", projectId := 0, adminStateUp := true }],
    subnets := [],
    routers := [],
    routerInterfaces := [],
    secGroups := [{ id := 5, name := "default", projectId := 2 }],
    secGroupRules := [],
    grants := [],
    nextId := 10,
    trace := [] }

/-- A fixture whose only security group belongs to another project. -/
def cloudB : Cloud :=
  { cloudA with secGroups := [{ id := 5, name := "default", projectId := 7 }] }

/-- A fixture with two security groups scoped to the same project. -/
def cloudC : Cloud :=
  { cloudA with secGroups := [{ id := 5, name := "default", projectId := 2 },
                              { id := 6, name := "default", projectId := 2 }] }

/-! ### Helper lemmas -/

/-- The overwrite-scan of the `for sec_group in default_sec_groups` loop selects
the last matching element: it equals the first match over the reversed list. -/
theorem secGroupScan_eq (gs : List SecGroup) (pid : Nat) (acc : Option Nat) :
    gs.foldl (fun a g => if g.projectId == pid then some g.id else a) acc =
      (match gs.reverse.find? (fun g => g.projectId == pid) with
       | some g => some g.id
       | none => acc) := by
  induction gs generalizing acc with
  | nil => rfl
  | cons g t ih =>
    simp only [List.foldl_cons, List.reverse_cons]
    rw [ih, List.find?_append]
    rcases hf : t.reverse.find? (fun g => g.projectId == pid) with _ | g0 <;>
      by_cases hg : (g.projectId == pid) = true <;>
        simp [hf, hg, Option.or, List.find?]

/-! ### Claim theorems -/

/-- Claim C4: both availability checks return true when the lookup raises
not-found, false when the lookup returns an entity (in particular once an entity
with that name exists), and true when the lookup returns a null result (in
particular for every name not present remotely). -/
theorem availability_check_contract (n : String) (st : Cloud) :
    (∀ faults : Nat → Option PyExc, faults 0 = some PyExc.notFound →
      (check_username_availability n faults st).1 = Except.ok true ∧
      (check_projectname_availability n faults st).1 = Except.ok true) ∧
    ((∃ u, st.users.find? (fun u => u.name == n) = some u) →
      (check_username_availability n noFaults st).1 = Except.ok false) ∧
    ((∀ u ∈ st.users, u.name ≠ n) →
      (check_username_availability n noFaults st).1 = Except.ok true) ∧
    ((∃ p, st.projects.find? (fun p => p.name == n) = some p) →
      (check_projectname_availability n noFaults st).1 = Except.ok false) ∧
    ((∀ p ∈ st.projects, p.name ≠ n) →
      (check_projectname_availability n noFaults st).1 = Except.ok true) := by
  refine ⟨?_, ?_, ?_, ?_, ?_⟩
  · intro faults h
    constructor <;>
      simp [check_username_availability, check_projectname_availability, remoteCall, h]
  · rintro ⟨u, hu⟩
    simp [check_username_availability, remoteCall, noFaults, findUserAct, hu]
  · intro h
    have hn : st.users.find? (fun u => u.name == n) = none := by
      rw [List.find?_eq_none]
      intro u hu
      simpa using h u hu
    simp [check_username_availability, remoteCall, noFaults, findUserAct, hn]
  · rintro ⟨p, hp⟩
    simp [check_projectname_availability, remoteCall, noFaults, findProjectAct, hp]
  · intro h
    have hn : st.projects.find? (fun p => p.name == n) = none := by
      rw [List.find?_eq_none]
      intro p hp
      simpa using h p hp
    simp [check_projectname_availability, remoteCall, noFaults, findProjectAct, hn]

/-- Witness for C4 on a concrete cloud: a fault raising not-found, a taken name,
and a fresh name. -/
theorem availability_check_contract_witness :
    ((faultAt 0 PyExc.notFound) 0 = some PyExc.notFound ∧
      (check_username_availability "bob" (faultAt 0 PyExc.notFound) cloudA).1 =
        Except.ok true) ∧
    ((∃ u, cloudA.users.find? (fun u => u.name == "alice") = some u) ∧
      (check_username_availability "alice" noFaults cloudA).1 = Except.ok false) ∧
    ((∀ p ∈ cloudA.projects, p.name ≠ "fresh") ∧
      (check_projectname_availability "fresh" noFaults cloudA).1 = Except.ok true) :=
  ⟨⟨by decide, ((availability_check_contract "bob" cloudA).1 (faultAt 0 PyExc.notFound)
      (by decide)).1⟩,
   ⟨⟨{ id := 1, name := "alice", email := "alice@example.org", enabled := true },
      by decide⟩,
    (availability_check_contract "alice" cloudA).2.1
      ⟨{ id := 1, name := "alice", email := "alice@example.org", enabled := true },
        by decide⟩⟩,
   ⟨by decide, (availability_check_contract "fresh" cloudA).2.2.2.2 (by decide)⟩⟩

/-- Claim C9: an identity API version other than 3 is only logged as an error;
construction still completes with all three sessions opened, not a hard abort. -/
theorem manager_init_version_only_logged (v : String) (hv : v ≠ "3") :
    managerInit v = Except.ok
      { errorLog := [identityVersionError], unifiedSessionOpen := true,
        networkSessionOpen := true, identitySessionOpen := true } := by
  simp [managerInit, hv]

/-- Witness for C9 at version "2". -/
theorem manager_init_version_only_logged_witness :
    ("2" : String) ≠ "3" ∧
    managerInit "2" = Except.ok
      { errorLog := [identityVersionError], unifiedSessionOpen := true,
        networkSessionOpen := true, identitySessionOpen := true } :=
  ⟨by decide, manager_init_version_only_logged "2" (by decide)⟩

/-- Claim C6: when no listed security group is scoped to the resolved project,
`add_ssh_rule` returns true and creates no security group rule (silent no-op). -/
theorem add_ssh_rule_silent_noop (pn : String) (st : Cloud) (p : Project)
    (hproj : st.projects.find? (fun q => q.name == pn) = some p)
    (hnone : ∀ g ∈ st.secGroups, g.projectId ≠ p.id) :
    (add_ssh_rule pn noFaults st).1 = Except.ok true ∧
    (add_ssh_rule pn noFaults st).2.secGroupRules = st.secGroupRules := by
  have hfind : st.secGroups.reverse.find? (fun g => g.projectId == p.id) = none := by
    rw [List.find?_eq_none]
    intro g hg
    simpa using hnone g (List.mem_reverse.mp hg)
  have hscan : st.secGroups.foldl
      (fun a g => if g.projectId == p.id then some g.id else a) none = none := by
    rw [secGroupScan_eq, hfind]
  constructor <;>
    simp only [add_ssh_rule, remoteCall, noFaults, findProjectAct, securityGroupsAct,
      hproj, hscan]

/-- Witness for C6 on a cloud whose only security group belongs to another project. -/
theorem add_ssh_rule_silent_noop_witness :
    (cloudB.projects.find? (fun q => q.name == "proj1") =
        some { id := 2, name := "proj1", description := "demo", enabled := true,
               properties := [] } ∧
      ∀ g ∈ cloudB.secGroups,
        g.projectId ≠ (2 : Nat)) ∧
    (add_ssh_rule "proj1" noFaults cloudB).1 = Except.ok true ∧
    (add_ssh_rule "proj1" noFaults cloudB).2.secGroupRules = cloudB.secGroupRules :=
  ⟨⟨by decide, by decide⟩,
   add_ssh_rule_silent_noop "proj1" cloudB
     { id := 2, name := "proj1", description := "demo", enabled := true, properties := [] }
     (by decide) (by decide)⟩

/-- Shared run lemma: a fault-free `add_ssh_rule` whose loop selects group id gid
returns true and appends exactly the one SSH rule on that group. -/
theorem add_ssh_rule_selected_run (pn : String) (st : Cloud) (p : Project)
    (gid : Nat)
    (hproj : st.projects.find? (fun q => q.name == pn) = some p)
    (hsel : st.secGroups.foldl
        (fun acc g => if g.projectId == p.id then some g.id else acc) none = some gid) :
    (add_ssh_rule pn noFaults st).1 = Except.ok true ∧
    (add_ssh_rule pn noFaults st).2.secGroupRules =
      st.secGroupRules ++
        [{ securityGroupId := gid, projectId := p.id, direction := "ingress",
           remoteIpPrefix := "0.0.0.0/0", protocol := "TCP", portRangeMax := "22",
           portRangeMin := "22", ethertype := "IPv4" }] := by
  constructor <;>
    simp only [add_ssh_rule, remoteCall, noFaults, findProjectAct, securityGroupsAct,
      createSecurityGroupRuleAct, hproj, hsel]

/-- Claim C8: when the loop over the listed security groups discovers a group scoped
to the project, exactly one rule is created on that group: ingress, TCP, port range
22..22, source 0.0.0.0/0, ethertype IPv4. -/
theorem add_ssh_rule_creates_single_ssh_rule (pn : String) (st : Cloud) (p : Project)
    (gid : Nat)
    (hproj : st.projects.find? (fun q => q.name == pn) = some p)
    (hsel : st.secGroups.foldl
        (fun acc g => if g.projectId == p.id then some g.id else acc) none = some gid) :
    (add_ssh_rule pn noFaults st).1 = Except.ok true ∧
    (add_ssh_rule pn noFaults st).2.secGroupRules =
      st.secGroupRules ++
        [{ securityGroupId := gid, projectId := p.id, direction := "ingress",
           remoteIpPrefix := "0.0.0.0/0", protocol := "TCP", portRangeMax := "22",
           portRangeMin := "22", ethertype := "IPv4" }] :=
  add_ssh_rule_selected_run pn st p gid hproj hsel

/-- Witness for C8 on a cloud with one matching default security group. -/
theorem add_ssh_rule_creates_single_ssh_rule_witness :
    (cloudA.projects.find? (fun q => q.name == "proj1") =
        some { id := 2, name := "proj1", description := "demo", enabled := true,
               properties := [] } ∧
      cloudA.secGroups.foldl
        (fun acc g => if g.projectId == (2 : Nat) then some g.id else acc) none =
          some 5) ∧
    (add_ssh_rule "proj1" noFaults cloudA).1 = Except.ok true ∧
    (add_ssh_rule "proj1" noFaults cloudA).2.secGroupRules =
      cloudA.secGroupRules ++
        [{ securityGroupId := 5, projectId := 2, direction := "ingress",
           remoteIpPrefix := "0.0.0.0/0", protocol := "TCP", portRangeMax := "22",
           portRangeMin := "22", ethertype := "IPv4" }] :=
  ⟨⟨by decide, by decide⟩,
   add_ssh_rule_creates_single_ssh_rule "proj1" cloudA
     { id := 2, name := "proj1", description := "demo", enabled := true, properties := [] }
     5 (by decide) (by decide)⟩

/-- Claim C10: with more than one security group scoped to the project, the scan does
not stop at the first match — each match overwrites the selected id, so the rule is
created on the last matching group in listing order (the first match of the reversed
listing). -/
theorem add_ssh_rule_last_match_wins (pn : String) (st : Cloud) (p : Project)
    (glast : SecGroup)
    (hproj : st.projects.find? (fun q => q.name == pn) = some p)
    (hmulti : 2 ≤ (st.secGroups.filter (fun g => g.projectId == p.id)).length)
    (hlast : st.secGroups.reverse.find? (fun g => g.projectId == p.id) = some glast) :
    (add_ssh_rule pn noFaults st).1 = Except.ok true ∧
    (add_ssh_rule pn noFaults st).2.secGroupRules =
      st.secGroupRules ++
        [{ securityGroupId := glast.id, projectId := p.id, direction := "ingress",
           remoteIpPrefix := "0.0.0.0/0", protocol := "TCP", portRangeMax := "22",
           portRangeMin := "22", ethertype := "IPv4" }] := by
  have hscan := secGroupScan_eq st.secGroups p.id none
  rw [hlast] at hscan
  exact add_ssh_rule_selected_run pn st p glast.id hproj hscan

/-- Witness for C10 on a cloud with two security groups scoped to the same project:
the rule lands on the second (last) one, id 6, not the first, id 5. -/
theorem add_ssh_rule_last_match_wins_witness :
    (cloudC.projects.find? (fun q => q.name == "proj1") =
        some { id := 2, name := "proj1", description := "demo", enabled := true,
               properties := [] } ∧
      2 ≤ (cloudC.secGroups.filter (fun g => g.projectId == (2 : Nat))).length ∧
      cloudC.secGroups.reverse.find? (fun g => g.projectId == (2 : Nat)) =
        some { id := 6, name := "default", projectId := 2 }) ∧
    (add_ssh_rule "proj1" noFaults cloudC).1 = Except.ok true ∧
    (add_ssh_rule "proj1" noFaults cloudC).2.secGroupRules =
      cloudC.secGroupRules ++
        [{ securityGroupId := 6, projectId := 2, direction := "ingress",
           remoteIpPrefix := "0.0.0.0/0", protocol := "TCP", portRangeMax := "22",
           portRangeMin := "22", ethertype := "IPv4" }] :=
  ⟨⟨by decide, by decide, by decide⟩,
   add_ssh_rule_last_match_wins "proj1" cloudC
     { id := 2, name := "proj1", description := "demo", enabled := true, properties := [] }
     { id := 6, name := "default", projectId := 2 }
     (by decide) (by decide) (by decide)⟩

/-- Claim C7: a failing lookup or grant call (any keystoneauth or neutron exception,
at whichever of the four remote calls) makes `pair_user_with_project` return the one
boolean failure value; in particular a role name that resolves to no existing role
yields false with no grant recorded. -/
theorem pair_user_with_project_failure_contract (un pn rn : String) (st : Cloud) :
    (∀ (faults : Nat → Option PyExc) (k : Nat) (e : PyExc), k ≤ 3 →
      (∀ j, j < k → faults j = none) → faults k = some e → hasMessageAttr e = true →
      (pair_user_with_project un pn rn faults st).1 = Except.ok false) ∧
    ((∀ r ∈ st.roles, r.name ≠ rn) →
      (pair_user_with_project un pn rn noFaults st).1 = Except.ok false ∧
      (pair_user_with_project un pn rn noFaults st).2.grants = st.grants) := by
  constructor
  · intro faults k e hk hbefore hfault hmsg
    interval_cases k
    · cases e <;> simp_all [pair_user_with_project, remoteCall, hasMessageAttr,
        isKaClientException]
    · have h0 := hbefore 0 (by omega)
      cases e <;> simp_all [pair_user_with_project, remoteCall, hasMessageAttr,
        isKaClientException]
    · have h0 := hbefore 0 (by omega)
      have h1 := hbefore 1 (by omega)
      cases e <;> simp_all [pair_user_with_project, remoteCall, hasMessageAttr,
        isKaClientException]
    · have h0 := hbefore 0 (by omega)
      have h1 := hbefore 1 (by omega)
      have h2 := hbefore 2 (by omega)
      cases e <;> simp_all [pair_user_with_project, remoteCall, grantStep,
        hasMessageAttr, isKaClientException]
  · intro hrole
    have hr : st.roles.find? (fun r => r.name == rn) = none := by
      rw [List.find?_eq_none]
      intro r hmem
      simpa using hrole r hmem
    constructor <;>
      simp only [pair_user_with_project, remoteCall, noFaults, findUserAct,
        findProjectAct, findRoleAct, grantStep, hr, isKaClientException,
        hasMessageAttr, if_true, if_false]

/-- Witness for C7: a client error during the project lookup, and a role name that
resolves to no existing role, both on a concrete cloud. -/
theorem pair_user_with_project_failure_contract_witness :
    ((1 : Nat) ≤ 3 ∧ (∀ j, j < 1 → faultAt 1 PyExc.kaClient j = none) ∧
      faultAt 1 PyExc.kaClient 1 = some PyExc.kaClient ∧
      hasMessageAttr PyExc.kaClient = true ∧
      (pair_user_with_project "alice" "proj1" "member" (faultAt 1 PyExc.kaClient)
          cloudA).1 = Except.ok false) ∧
    ((∀ r ∈ cloudA.roles, r.name ≠ "nope") ∧
      (pair_user_with_project "alice" "proj1" "nope" noFaults cloudA).1 =
        Except.ok false ∧
      (pair_user_with_project "alice" "proj1" "nope" noFaults cloudA).2.grants =
        cloudA.grants) :=
  ⟨⟨by decide, by decide, by decide, by decide,
    (pair_user_with_project_failure_contract "alice" "proj1" "member" cloudA).1
      (faultAt 1 PyExc.kaClient) 1 PyExc.kaClient (by decide) (by decide) (by decide)
      (by decide)⟩,
   ⟨by decide,
    (pair_user_with_project_failure_contract "alice" "proj1" "nope" cloudA).2
      (by decide)⟩⟩

/-- Claim C3: when no listed network's name equals `external_network_name`, the
`[... ][0]` access raises `IndexError`, which neither `except` clause catches: the
invocation crashes instead of returning the clean boolean failure.  (The scan runs
after the "private" network of this very invocation was created, so that network is
part of the listing.) -/
theorem init_network_missing_external_crashes (pn extn : String)
    (dns : List String) (cidr gw : String) (st : Cloud) (p : Project)
    (hproj : st.projects.find? (fun q => q.name == pn) = some p)
    (hmiss : (st.networks ++
        [({ id := st.nextId, name := "private", projectId := p.id,
            adminStateUp := true } : Network)]).filter
          (fun n => n.name == extn) = []) :
    (init_network pn extn dns cidr gw noFaults st).1 = Except.error PyExc.indexError ∧
    (init_network pn extn dns cidr gw noFaults st).1 ≠ Except.ok false := by
  have key : (init_network pn extn dns cidr gw noFaults st).1 =
      Except.error PyExc.indexError := by
    simp only [init_network, remoteCall, noFaults, findProjectAct, createNetworkAct,
      createSubnetAct, listNetworksAct, isNeutronException, isKaClientException,
      hproj, hmiss]
    simp
  refine ⟨key, ?_⟩
  rw [key]
  simp

/-- Witness for C3: the fixture has no network named "nope". -/
theorem init_network_missing_external_crashes_witness :
    (cloudA.projects.find? (fun q => q.name == "proj1") =
        some { id := 2, name := "proj1", description := "demo", enabled := true,
               properties := [] } ∧
      (cloudA.networks ++
          [({ id := cloudA.nextId, name := "private", projectId := 2,
              adminStateUp := true } : Network)]).filter
            (fun n => n.name == "nope") = []) ∧
    (init_network "proj1" "nope" ["8.8.8.8"] "10.0.0.0/24" "10.0.0.1" noFaults
        cloudA).1 = Except.error PyExc.indexError ∧
    (init_network "proj1" "nope" ["8.8.8.8"] "10.0.0.0/24" "10.0.0.1" noFaults
        cloudA).1 ≠ Except.ok false :=
  ⟨⟨by decide, by decide⟩,
   init_network_missing_external_crashes "proj1" "nope" ["8.8.8.8"] "10.0.0.0/24"
     "10.0.0.1" cloudA
     { id := 2, name := "proj1", description := "demo", enabled := true, properties := [] }
     (by decide) (by decide)⟩

/-- Claim C2: a fault-free `init_network` run on a resolvable project and external
network returns true and performs, in order: project lookup; creation of network
"private" (project-scoped, admin-state up); creation of subnet "private" on that
network (IPv4, caller CIDR, gateway, DNS list, DHCP on); network listing and router
creation ("router", admin-state up, external gateway = the id of the first listed
network whose name matches, project-scoped); and the router-interface attachment of
the subnet. -/
theorem init_network_success_sequence (pn extn : String) (dns : List String)
    (cidr gw : String) (st : Cloud) (p : Project) (extNet : Network)
    (rest : List Network)
    (hproj : st.projects.find? (fun q => q.name == pn) = some p)
    (hext : (st.networks ++
        [({ id := st.nextId, name := "private", projectId := p.id,
            adminStateUp := true } : Network)]).filter
          (fun n => n.name == extn) = extNet :: rest) :
    (init_network pn extn dns cidr gw noFaults st).1 = Except.ok true ∧
    (init_network pn extn dns cidr gw noFaults st).2.trace =
      st.trace ++
        [ApiCall.findProject pn,
         ApiCall.createNetwork "private" p.id true,
         ApiCall.createSubnet "private" st.nextId gw true 4 cidr dns,
         ApiCall.listNetworks,
         ApiCall.createRouter "router" true extNet.id p.id,
         ApiCall.addInterfaceRouter (st.nextId + 2) (st.nextId + 1) p.id] := by
  constructor
  · simp only [init_network, remoteCall, noFaults, findProjectAct, createNetworkAct,
      createSubnetAct, listNetworksAct, createRouterAct, addInterfaceRouterAct,
      hproj, hext]
  · simp only [init_network, remoteCall, noFaults, findProjectAct, createNetworkAct,
      createSubnetAct, listNetworksAct, createRouterAct, addInterfaceRouterAct,
      hproj, hext]
    simp [List.append_assoc, Nat.add_assoc]

/-- Witness for C2 on the fixture cloud (external network "ext-net", id 4). -/
theorem init_network_success_sequence_witness :
    (cloudA.projects.find? (fun q => q.name == "proj1") =
        some { id := 2, name := "proj1", description := "demo", enabled := true,
               properties := [] } ∧
      (cloudA.networks ++
          [({ id := cloudA.nextId, name := "private", projectId := 2,
              adminStateUp := true } : Network)]).filter
            (fun n => n.name == "ext-net") =
        { id := 4, name := "ext-net", projectId := 0, adminStateUp := true } :: []) ∧
    (init_network "proj1" "ext-net" ["8.8.8.8"] "10.0.0.0/24" "10.0.0.1" noFaults
        cloudA).1 = Except.ok true ∧
    (init_network "proj1" "ext-net" ["8.8.8.8"] "10.0.0.0/24" "10.0.0.1" noFaults
        cloudA).2.trace =
      cloudA.trace ++
        [ApiCall.findProject "proj1",
         ApiCall.createNetwork "private" 2 true,
         ApiCall.createSubnet "private" cloudA.nextId "10.0.0.1" true 4 "10.0.0.0/24"
           ["8.8.8.8"],
         ApiCall.listNetworks,
         ApiCall.createRouter "router" true 4 2,
         ApiCall.addInterfaceRouter (cloudA.nextId + 2) (cloudA.nextId + 1) 2] :=
  ⟨⟨by decide, by decide⟩,
   init_network_success_sequence "proj1" "ext-net" ["8.8.8.8"] "10.0.0.0/24" "10.0.0.1"
     cloudA
     { id := 2, name := "proj1", description := "demo", enabled := true, properties := [] }
     { id := 4, name := "ext-net", projectId := 0, adminStateUp := true } []
     (by decide) (by decide)⟩

/-- Claim C1: when the k-th remote call of `init_network` raises a network-API or
identity-API client exception (caught by its two handlers), the invocation returns
false, every resource committed by the earlier calls is still present (each resource
list of the final cloud extends the initial one — nothing is deleted), and exactly
the steps before the failing call are committed: the network exists iff the fault
came after call 1, the subnet iff after call 2, the router iff after call 4, and the
interface attachment never (no cleanup and no completion of later steps). -/
theorem init_network_no_rollback_on_client_error (pn extn : String)
    (dns : List String) (cidr gw : String) (st : Cloud)
    (faults : Nat → Option PyExc) (k : Nat) (e : PyExc) (p : Project)
    (hk : k ≤ 5)
    (hbefore : ∀ j, j < k → faults j = none)
    (hfault : faults k = some e)
    (hcaught : isNeutronException e = true ∨ isKaClientException e = true)
    (hproj : 1 ≤ k → st.projects.find? (fun q => q.name == pn) = some p)
    (hext : 4 ≤ k → ∃ x xs, (st.networks ++
        [({ id := st.nextId, name := "private", projectId := p.id,
            adminStateUp := true } : Network)]).filter
          (fun n => n.name == extn) = x :: xs) :
    (init_network pn extn dns cidr gw faults st).1 = Except.ok false ∧
    (∃ t, (init_network pn extn dns cidr gw faults st).2.networks =
      st.networks ++ t) ∧
    (∃ t, (init_network pn extn dns cidr gw faults st).2.subnets =
      st.subnets ++ t) ∧
    (∃ t, (init_network pn extn dns cidr gw faults st).2.routers =
      st.routers ++ t) ∧
    (∃ t, (init_network pn extn dns cidr gw faults st).2.routerInterfaces =
      st.routerInterfaces ++ t) ∧
    (init_network pn extn dns cidr gw faults st).2.networks.length =
      st.networks.length + (if 2 ≤ k then 1 else 0) ∧
    (init_network pn extn dns cidr gw faults st).2.subnets.length =
      st.subnets.length + (if 3 ≤ k then 1 else 0) ∧
    (init_network pn extn dns cidr gw faults st).2.routers.length =
      st.routers.length + (if 5 ≤ k then 1 else 0) ∧
    (init_network pn extn dns cidr gw faults st).2.routerInterfaces.length =
      st.routerInterfaces.length := by
  interval_cases k
  · rcases hcaught with h | h <;> cases e <;>
      simp_all [init_network, remoteCall, isNeutronException, isKaClientException]
  · have h0 := hbefore 0 (by omega)
    have hp := hproj (by omega)
    rcases hcaught with h | h <;> cases e <;>
      simp_all [init_network, remoteCall, findProjectAct, isNeutronException,
        isKaClientException]
  · have h0 := hbefore 0 (by omega)
    have h1 := hbefore 1 (by omega)
    have hp := hproj (by omega)
    rcases hcaught with h | h <;> cases e <;>
      simp_all [init_network, remoteCall, findProjectAct, createNetworkAct,
        isNeutronException, isKaClientException]
  · have h0 := hbefore 0 (by omega)
    have h1 := hbefore 1 (by omega)
    have h2 := hbefore 2 (by omega)
    have hp := hproj (by omega)
    rcases hcaught with h | h <;> cases e <;>
      simp_all [init_network, remoteCall, findProjectAct, createNetworkAct,
        createSubnetAct, isNeutronException, isKaClientException]
  · have h0 := hbefore 0 (by omega)
    have h1 := hbefore 1 (by omega)
    have h2 := hbefore 2 (by omega)
    have h3 := hbefore 3 (by omega)
    have hp := hproj (by omega)
    obtain ⟨x, xs, hx⟩ := hext (by omega)
    rcases hcaught with h | h <;> cases e <;>
      simp_all [init_network, remoteCall, findProjectAct, createNetworkAct,
        createSubnetAct, listNetworksAct, isNeutronException, isKaClientException]
  · have h0 := hbefore 0 (by omega)
    have h1 := hbefore 1 (by omega)
    have h2 := hbefore 2 (by omega)
    have h3 := hbefore 3 (by omega)
    have h4 := hbefore 4 (by omega)
    have hp := hproj (by omega)
    obtain ⟨x, xs, hx⟩ := hext (by omega)
    rcases hcaught with h | h <;> cases e <;>
      simp_all [init_network, remoteCall, findProjectAct, createNetworkAct,
        createSubnetAct, listNetworksAct, createRouterAct, isNeutronException,
        isKaClientException]

/-- Witness for C1: a keystoneauth client error at call 2 (subnet creation) on the
fixture cloud — the invocation returns false, the created "private" network stays
committed, and no subnet, router or interface exists. -/
theorem init_network_no_rollback_on_client_error_witness :
    ((2 : Nat) ≤ 5 ∧
      (∀ j, j < 2 → faultAt 2 PyExc.kaClient j = none) ∧
      faultAt 2 PyExc.kaClient 2 = some PyExc.kaClient ∧
      (isNeutronException PyExc.kaClient = true ∨
        isKaClientException PyExc.kaClient = true) ∧
      ((1 : Nat) ≤ 2 → cloudA.projects.find? (fun q => q.name == "proj1") =
        some { id := 2, name := "proj1", description := "demo", enabled := true,
               properties := [] })) ∧
    ((init_network "proj1" "ext-net" ["8.8.8.8"] "10.0.0.0/24" "10.0.0.1"
        (faultAt 2 PyExc.kaClient) cloudA).1 = Except.ok false ∧
      (∃ t, (init_network "proj1" "ext-net" ["8.8.8.8"] "10.0.0.0/24" "10.0.0.1"
        (faultAt 2 PyExc.kaClient) cloudA).2.networks = cloudA.networks ++ t) ∧
      (∃ t, (init_network "proj1" "ext-net" ["8.8.8.8"] "10.0.0.0/24" "10.0.0.1"
        (faultAt 2 PyExc.kaClient) cloudA).2.subnets = cloudA.subnets ++ t) ∧
      (∃ t, (init_network "proj1" "ext-net" ["8.8.8.8"] "10.0.0.0/24" "10.0.0.1"
        (faultAt 2 PyExc.kaClient) cloudA).2.routers = cloudA.routers ++ t) ∧
      (∃ t, (init_network "proj1" "ext-net" ["8.8.8.8"] "10.0.0.0/24" "10.0.0.1"
        (faultAt 2 PyExc.kaClient) cloudA).2.routerInterfaces =
          cloudA.routerInterfaces ++ t) ∧
      (init_network "proj1" "ext-net" ["8.8.8.8"] "10.0.0.0/24" "10.0.0.1"
        (faultAt 2 PyExc.kaClient) cloudA).2.networks.length =
          cloudA.networks.length + (if 2 ≤ 2 then 1 else 0) ∧
      (init_network "proj1" "ext-net" ["8.8.8.8"] "10.0.0.0/24" "10.0.0.1"
        (faultAt 2 PyExc.kaClient) cloudA).2.subnets.length =
          cloudA.subnets.length + (if 3 ≤ 2 then 1 else 0) ∧
      (init_network "proj1" "ext-net" ["8.8.8.8"] "10.0.0.0/24" "10.0.0.1"
        (faultAt 2 PyExc.kaClient) cloudA).2.routers.length =
          cloudA.routers.length + (if 5 ≤ 2 then 1 else 0) ∧
      (init_network "proj1" "ext-net" ["8.8.8.8"] "10.0.0.0/24" "10.0.0.1"
        (faultAt 2 PyExc.kaClient) cloudA).2.routerInterfaces.length =
          cloudA.routerInterfaces.length) :=
  ⟨⟨by decide, by decide, by decide, Or.inr (by decide), fun _ => by decide⟩,
   init_network_no_rollback_on_client_error "proj1" "ext-net" ["8.8.8.8"]
     "10.0.0.0/24" "10.0.0.1" cloudA (faultAt 2 PyExc.kaClient) 2 PyExc.kaClient
     { id := 2, name := "proj1", description := "demo", enabled := true,
       properties := [] }
     (by decide) (by decide) (by decide) (Or.inr (by decide))
     (fun _ => by decide) (fun h => absurd h (by decide))⟩

/-- If the i-th property update is the first remote call of the loop to raise, the
loop stops with that exception and exactly the first i updates are applied. -/
theorem applyProperties_fault (p : Project) (props : List (String × String))
    (faults : Nat → Option PyExc) (e : PyExc) :
    ∀ (k i : Nat) (st : Cloud), i < props.length →
      (∀ j, j < i → faults (k + j) = none) → faults (k + i) = some e →
      applyProperties faults k (some p) props st =
        (Except.error e, applyUpdatesPure p.id (props.take i) st) := by
  induction props with
  | nil =>
    intro k i st hi _ _
    simp at hi
  | cons kv rest ih =>
    obtain ⟨key, value⟩ := kv
    intro k i st hi hbefore hfault
    cases i with
    | zero =>
      simp only [Nat.add_zero] at hfault
      simp only [applyProperties, remoteCall, hfault, List.take_zero, applyUpdatesPure]
    | succ i2 =>
      have hk : faults k = none := by simpa using hbefore 0 (by omega)
      have hb2 : ∀ j, j < i2 → faults (k + 1 + j) = none := by
        intro j hj
        have h := hbefore (j + 1) (by omega)
        have harith : k + (j + 1) = k + 1 + j := by omega
        rwa [harith] at h
      have hf2 : faults (k + 1 + i2) = some e := by
        have harith : k + (i2 + 1) = k + 1 + i2 := by omega
        rwa [harith] at hfault
      have hi2 : i2 < rest.length := by simpa using hi
      simp only [applyProperties, remoteCall, hk, List.take_succ_cons, applyUpdatesPure]
      exact ih (k + 1) i2 (updateProjectAct p.id key value st).2 hi2 hb2 hf2

/-- Iterated `update_project` by id rewrites only the one listed project carrying
that id, folding the property updates over its property list. -/
theorem applyUpdatesPure_projects (pid : Nat) (kvs : List (String × String)) :
    ∀ (st : Cloud) (A : List Project) (p : Project), p.id = pid →
      (∀ q ∈ A, q.id ≠ pid) → st.projects = A ++ [p] →
      (applyUpdatesPure pid kvs st).projects =
        A ++
          [{ p with properties :=
               kvs.foldl (fun ps kv => setProp ps kv.1 kv.2) p.properties }] := by
  induction kvs with
  | nil =>
    intro st A p hp hA hst
    simpa [applyUpdatesPure] using hst
  | cons kv rest ih =>
    obtain ⟨key, value⟩ := kv
    intro st A p hp hA hst
    have hid : ∀ q ∈ A,
        (if q.id == pid
         then { q with properties := setProp q.properties key value }
         else q) = q := by
      intro q hq
      simp [hA q hq]
    have hmap : (updateProjectAct pid key value st).2.projects =
        A ++ [{ p with properties := setProp p.properties key value }] := by
      simp only [updateProjectAct, hst, List.map_append]
      congr 1
      · calc List.map (fun q =>
              if q.id == pid
              then { q with properties := setProp q.properties key value }
              else q) A
            = List.map id A := List.map_congr_left (fun q hq => by simp [hA q hq])
          _ = A := List.map_id A
      · simp [hp]
    have hstep : applyUpdatesPure pid ((key, value) :: rest) st =
        applyUpdatesPure pid rest (updateProjectAct pid key value st).2 := rfl
    rw [hstep, ih (updateProjectAct pid key value st).2 A
      { p with properties := setProp p.properties key value } hp hA hmap]
    simp [List.foldl_cons]

/-- Claim C5: after the create call succeeds, `create_project` re-resolves the
project by name and applies each caller-supplied property as its own update call;
when the i-th property update raises a client exception, the method returns false
while the project remains created with exactly the first i properties applied — the
creation and the earlier updates are not rolled back. -/
theorem create_project_partial_failure (description project_name : String)
    (properties : List (String × String)) (enabled : Bool)
    (faults : Nat → Option PyExc) (st : Cloud) (i : Nat) (e : PyExc)
    (hfresh : ∀ q ∈ st.projects, q.name ≠ project_name)
    (hids : ∀ q ∈ st.projects, q.id ≠ st.nextId)
    (hi : i < properties.length)
    (hbefore : ∀ j, j < 2 + i → faults j = none)
    (hfault : faults (2 + i) = some e)
    (hcaught : isKaClientException e = true) :
    (create_project description project_name properties enabled faults st).1 =
      Except.ok false ∧
    (create_project description project_name properties enabled faults st).2.projects =
      st.projects ++
        [{ id := st.nextId, name := project_name, description := description,
           enabled := enabled,
           properties := (properties.take i).foldl
             (fun ps kv => setProp ps kv.1 kv.2) [] }] := by
  have h0 : faults 0 = none := hbefore 0 (by omega)
  have h1 : faults 1 = none := hbefore 1 (by omega)
  have hb : ∀ j, j < i → faults (2 + j) = none := fun j hj => hbefore (2 + j) (by omega)
  have hnone : st.projects.find? (fun q => q.name == project_name) = none := by
    rw [List.find?_eq_none]
    intro q hq
    simpa using hfresh q hq
  have hfind : (st.projects ++
      [({ id := st.nextId, name := project_name, description := description,
          enabled := enabled, properties := [] } : Project)]).find?
        (fun q => q.name == project_name) =
      some { id := st.nextId, name := project_name, description := description,
             enabled := enabled, properties := [] } := by
    rw [List.find?_append, hnone]
    simp [Option.or, List.find?]
  constructor
  · simp only [create_project, remoteCall, h0, h1, createProjectAct, findProjectAct,
      hfind]
    rw [applyProperties_fault _ _ _ _ 2 i _ hi hb hfault]
    simp only [hcaught, if_true]
  · simp only [create_project, remoteCall, h0, h1, createProjectAct, findProjectAct,
      hfind]
    rw [applyProperties_fault _ _ _ _ 2 i _ hi hb hfault]
    simp only [hcaught, if_true]
    rw [applyUpdatesPure_projects _ _ _ st.projects
      { id := st.nextId, name := project_name, description := description,
        enabled := enabled, properties := [] } rfl hids rfl]

/-- Witness for C5: creating "newproj" with properties a=1 then b=2, where the
update for b (remote call 3) raises — the method returns false and the project
remains created with only a=1 set. -/
theorem create_project_partial_failure_witness :
    ((∀ q ∈ cloudA.projects, q.name ≠ "newproj") ∧
      (∀ q ∈ cloudA.projects, q.id ≠ cloudA.nextId) ∧
      (1 : Nat) < ([("a", "1"), ("b", "2")] : List (String × String)).length ∧
      (∀ j, j < 2 + 1 → faultAt 3 PyExc.kaClient j = none) ∧
      faultAt 3 PyExc.kaClient (2 + 1) = some PyExc.kaClient ∧
      isKaClientException PyExc.kaClient = true) ∧
    ((create_project "d2" "newproj" [("a", "1"), ("b", "2")] false
        (faultAt 3 PyExc.kaClient) cloudA).1 = Except.ok false ∧
      (create_project "d2" "newproj" [("a", "1"), ("b", "2")] false
        (faultAt 3 PyExc.kaClient) cloudA).2.projects =
        cloudA.projects ++
          [{ id := cloudA.nextId, name := "newproj", description := "d2",
             enabled := false, properties := [("a", "1")] }]) :=
  ⟨⟨by decide, by decide, by decide, by decide, by decide, by decide⟩,
   create_project_partial_failure "d2" "newproj" [("a", "1"), ("b", "2")] false
     (faultAt 3 PyExc.kaClient) cloudA 1 PyExc.kaClient
     (by decide) (by decide) (by decide) (by decide) (by decide) (by decide)⟩
